import Mathlib

/-!
Verification development for the `yy::DoubleBuffer<T>` single-writer
multi-reader double-buffering primitive (src/include/DoubleBuffer.hpp).

The container owns two slots (`buffers_[0]`, `buffers_[1]`), each a value of
type `T` together with an atomic `ref_count`; an atomic pointer `read_buffer_`
designates the slot readers treat as current, and a non-atomic pointer
`write_buffer_` designates the slot the writer mutates.  Pointers into the
two-element array are embedded as indices in `Fin 2`.

Two models are developed:

* a sequential (single-thread-at-a-time) model, in which `read` and `write`
  are state-passing functions — the read loop is given explicit fuel, and the
  writer's wait loop is rendered as `Option` (`none` = the wait would spin
  forever in a single-threaded execution);

* a concrete interleaved two-thread machine (one writer, one reader) over a
  payload of two machine words, in which every atomic operation of the source
  is one step and the non-atomic copy of `data` is two steps (one per word),
  used to analyse the concurrent behaviour of the code.
-/

/-- One storage slot: the `Buffer` struct of the source (lines 12-18): the
payload `data` and the per-slot atomic `ref_count` (initially 0). -/
structure Buffer (V : Type) where
  data : V
  ref_count : Nat
deriving DecidableEq, Repr

/-- The container state (lines 21-27): the two slots `buffers_[0]` and
`buffers_[1]`, the atomic current designator `read_buffer_` and the writer's
non-atomic target designator `write_buffer_`, both as indices into the slot
pair. -/
structure DoubleBuffer (V : Type) where
  buffer0 : Buffer V
  buffer1 : Buffer V
  read_buffer_ : Fin 2
  write_buffer_ : Fin 2
deriving DecidableEq, Repr

variable {V : Type}

/-- Dereference a slot index: `buffers_[i]`. -/
def DoubleBuffer.getBuf (db : DoubleBuffer V) (i : Fin 2) : Buffer V :=
  if i = 0 then db.buffer0 else db.buffer1

/-- Store into `buffers_[i].data`. -/
def DoubleBuffer.setData (db : DoubleBuffer V) (i : Fin 2) (v : V) : DoubleBuffer V :=
  if i = 0 then { db with buffer0 := { db.buffer0 with data := v } }
  else { db with buffer1 := { db.buffer1 with data := v } }

/-- Apply `f` to `buffers_[i].ref_count` (models `fetch_add`/`fetch_sub`). -/
def DoubleBuffer.modifyRef (db : DoubleBuffer V) (i : Fin 2) (f : Nat → Nat) : DoubleBuffer V :=
  if i = 0 then { db with buffer0 := { db.buffer0 with ref_count := f db.buffer0.ref_count } }
  else { db with buffer1 := { db.buffer1 with ref_count := f db.buffer1.ref_count } }

/-- The constructor `DoubleBuffer(const T &init_value)` (lines 31-34): both
slots are assigned `init_value`, both `ref_count`s are zero-initialised
(line 17), `read_buffer_` starts at `&buffers_[0]` (line 24) and
`write_buffer_` at `&buffers_[1]` (line 27). -/
def DoubleBuffer.mkInit (init : V) : DoubleBuffer V :=
  { buffer0 := { data := init, ref_count := 0 }
    buffer1 := { data := init, ref_count := 0 }
    read_buffer_ := 0
    write_buffer_ := 1 }

/-- One iteration of the `read()` loop (lines 46-66): load `read_buffer_`
into `read_ptr`, increment that slot's `ref_count`, re-load `read_buffer_`
and compare; on mismatch decrement and signal retry (`none`); on match copy
the slot's `data`, decrement, and return the copy (`some`).  The state after
the iteration is returned alongside. -/
def DoubleBuffer.readIter (db : DoubleBuffer V) : Option V × DoubleBuffer V :=
  let read_ptr := db.read_buffer_
  let db1 := db.modifyRef read_ptr (fun n => n + 1)
  if read_ptr ≠ db1.read_buffer_ then
    (none, db1.modifyRef read_ptr (fun n => n - 1))
  else
    (some ((db1.getBuf read_ptr).data), db1.modifyRef read_ptr (fun n => n - 1))

/-- The `read()` method (lines 44-67) as a fuelled loop over
`DoubleBuffer.readIter`: retry while the iteration signals a designator
mismatch.  Fuel bounds the number of iterations; `none` means the fuel was
exhausted before an iteration succeeded. -/
def DoubleBuffer.readLoop : Nat → DoubleBuffer V → Option (V × DoubleBuffer V)
  | 0, _ => none
  | fuel + 1, db =>
    match db.readIter with
    | (some v, db1) => some (v, db1)
    | (none, db1) => DoubleBuffer.readLoop fuel db1

/-- The `write()` method (lines 73-86) in the sequential model: store the new
value through `write_buffer_` (line 75), exchange `read_buffer_` to
`write_buffer_` keeping the previous value (lines 78-79), then wait until the
previous slot's `ref_count` is zero (lines 82-85).  In a single-threaded
execution no other thread can change the count, so the wait loop exits
immediately if the count is zero and spins forever otherwise (`none`).
Faithful to the source, `write_buffer_` is NOT reassigned after the
exchange. -/
def DoubleBuffer.write (db : DoubleBuffer V) (v : V) : Option (DoubleBuffer V) :=
  let db1 := db.setData db.write_buffer_ v
  let prev_read_ptr := db1.read_buffer_
  let db2 := { db1 with read_buffer_ := db1.write_buffer_ }
  if (db2.getBuf prev_read_ptr).ref_count = 0 then some db2 else none

/-- A sequence of `write` calls, each required to return. -/
def DoubleBuffer.applyWrites (db : DoubleBuffer V) : List V → Option (DoubleBuffer V)
  | [] => some db
  | v :: vs =>
    match db.write v with
    | some db1 => DoubleBuffer.applyWrites db1 vs
    | none => none

/-- Outcome of a `read()` whose payload copy may raise.  `read()` is declared
`noexcept` (line 44), so a raising copy constructor does not propagate: the
program terminates (`std::terminate`), modelled by `terminated`. -/
inductive CopyExit (V : Type) where
  | ok (v : V)
  | terminated
deriving DecidableEq, Repr

/-- One iteration of `read()` with the payload copy at line 60 modelled as
fallible (`copyRaises = true` means the copy constructor of `T` raises).
The source has no try/catch around the copy and the decrement at line 63 is
written after it, so on the raising path control never reaches the decrement;
because `read()` is `noexcept`, the raise terminates the program rather than
propagating.  The returned state records the container bookkeeping at exit. -/
def DoubleBuffer.readIterExc (db : DoubleBuffer V) (copyRaises : Bool) :
    Option (CopyExit V) × DoubleBuffer V :=
  let read_ptr := db.read_buffer_
  let db1 := db.modifyRef read_ptr (fun n => n + 1)
  if read_ptr ≠ db1.read_buffer_ then
    (none, db1.modifyRef read_ptr (fun n => n - 1))
  else if copyRaises then
    (some CopyExit.terminated, db1)
  else
    (some (CopyExit.ok ((db1.getBuf read_ptr).data)), db1.modifyRef read_ptr (fun n => n - 1))

/-- The container state reached from `DoubleBuffer(0)` after `write(1)`:
slot 1 holds 1, `read_buffer_` was exchanged to slot 1, and `write_buffer_`
still designates slot 1 because the source never reassigns it. -/
def afterOneWrite : DoubleBuffer Nat :=
  { buffer0 := { data := 0, ref_count := 0 }
    buffer1 := { data := 1, ref_count := 0 }
    read_buffer_ := 1
    write_buffer_ := 1 }

/-- The container state reached from `DoubleBuffer(0)` after `write(1)` then
`write(2)`: the second write overwrote slot 1 in place. -/
def afterTwoWrites : DoubleBuffer Nat :=
  { buffer0 := { data := 0, ref_count := 0 }
    buffer1 := { data := 2, ref_count := 0 }
    read_buffer_ := 1
    write_buffer_ := 1 }

/-!
Interleaved two-thread machine.  The payload is `DoubleBuffer<TestData>`-like:
two machine words (the benchmark's `TestData` holds 32 `int`s; two words are
the smallest payload that can exhibit a torn copy).  `data` is not atomic in
the source — only `ref_count` and `read_buffer_` are — so the plain assignment
`write_buffer_->data = new_value` (line 75) and the plain copy
`T value = read_ptr->data` (line 60) each take one machine step per word,
while every atomic operation is a single step.
-/

/-- A slot for the interleaved machine: a two-word payload and the slot's
atomic `ref_count`. -/
structure CBuf where
  word0 : Nat
  word1 : Nat
  ref : Nat
deriving DecidableEq, Repr

/-- Shared memory of the interleaved machine: the two slots, the atomic
current designator `read_buffer_` and the writer's non-atomic
`write_buffer_`. -/
structure CShared where
  buf0 : CBuf
  buf1 : CBuf
  readBuf : Fin 2
  writeBuf : Fin 2
deriving DecidableEq, Repr

/-- Dereference a slot index in the interleaved machine. -/
def CShared.getBuf (s : CShared) (i : Fin 2) : CBuf :=
  if i = 0 then s.buf0 else s.buf1

/-- Store into word 0 of slot `i`. -/
def CShared.setWord0 (s : CShared) (i : Fin 2) (a : Nat) : CShared :=
  if i = 0 then { s with buf0 := { s.buf0 with word0 := a } }
  else { s with buf1 := { s.buf1 with word0 := a } }

/-- Store into word 1 of slot `i`. -/
def CShared.setWord1 (s : CShared) (i : Fin 2) (b : Nat) : CShared :=
  if i = 0 then { s with buf0 := { s.buf0 with word1 := b } }
  else { s with buf1 := { s.buf1 with word1 := b } }

/-- Apply `f` to slot `i`'s `ref` count (atomic increment/decrement). -/
def CShared.modifyRef (s : CShared) (i : Fin 2) (f : Nat → Nat) : CShared :=
  if i = 0 then { s with buf0 := { s.buf0 with ref := f s.buf0.ref } }
  else { s with buf1 := { s.buf1 with ref := f s.buf1.ref } }

/-- Writer program counter inside one `write(new_value)` call (lines 73-86).
`ready` is between calls; entering a write stores word 0 of the payload, then
`storeSnd` stores word 1 (together they are the non-atomic assignment at
line 75), `publish` is the atomic exchange (lines 78-79), and `wait prev` is
the wait loop on the previous slot's count (lines 82-85). -/
inductive WriterPc where
  | ready
  | storeSnd (a b : Nat)
  | publish (a b : Nat)
  | wait (prev : Fin 2)
deriving DecidableEq, Repr

/-- Writer thread state: the writes not yet started, and the program
counter. -/
structure WriterSt where
  pending : List (Nat × Nat)
  pc : WriterPc
deriving DecidableEq, Repr

/-- Reader program counter inside one `read()` call (lines 44-67).  `start`
loads `read_buffer_` into `read_ptr` (line 48); `inc` is the `fetch_add`
(line 51); `check` is the re-load and comparison (line 53); `decRetry` is the
`fetch_sub` before retrying (line 55); `copyFst`/`copySnd` are the two-word
non-atomic copy of `data` (line 60); `decOk` is the final `fetch_sub`
(line 63); `done` holds the returned copy. -/
inductive ReaderPc where
  | start
  | inc (p : Fin 2)
  | check (p : Fin 2)
  | decRetry (p : Fin 2)
  | copyFst (p : Fin 2)
  | copySnd (p : Fin 2) (a : Nat)
  | decOk (p : Fin 2) (a b : Nat)
  | done (a b : Nat)
deriving DecidableEq, Repr

/-- A configuration of the interleaved machine: shared memory plus one writer
thread and one reader thread. -/
structure Config where
  sh : CShared
  w : WriterSt
  r : ReaderPc
deriving DecidableEq, Repr

/-- One step of the writer thread.  When the writer is blocked in its wait
loop on a nonzero count, or has no writes left, a step leaves the
configuration unchanged (a spin/yield iteration). -/
def stepW (c : Config) : Config :=
  match c.w.pc with
  | WriterPc.ready =>
    match c.w.pending with
    | [] => c
    | (a, b) :: rest =>
      { c with
        sh := c.sh.setWord0 c.sh.writeBuf a
        w := { pending := rest, pc := WriterPc.storeSnd a b } }
  | WriterPc.storeSnd a b =>
    { c with
      sh := c.sh.setWord1 c.sh.writeBuf b
      w := { c.w with pc := WriterPc.publish a b } }
  | WriterPc.publish _ _ =>
    { c with
      sh := { c.sh with readBuf := c.sh.writeBuf }
      w := { c.w with pc := WriterPc.wait c.sh.readBuf } }
  | WriterPc.wait prev =>
    if (c.sh.getBuf prev).ref = 0 then
      { c with w := { c.w with pc := WriterPc.ready } }
    else c

/-- One step of the reader thread (no-op once `done`). -/
def stepR (c : Config) : Config :=
  match c.r with
  | ReaderPc.start => { c with r := ReaderPc.inc c.sh.readBuf }
  | ReaderPc.inc p =>
    { c with sh := c.sh.modifyRef p (fun n => n + 1), r := ReaderPc.check p }
  | ReaderPc.check p =>
    if p = c.sh.readBuf then { c with r := ReaderPc.copyFst p }
    else { c with r := ReaderPc.decRetry p }
  | ReaderPc.decRetry p =>
    { c with sh := c.sh.modifyRef p (fun n => n - 1), r := ReaderPc.start }
  | ReaderPc.copyFst p => { c with r := ReaderPc.copySnd p (c.sh.getBuf p).word0 }
  | ReaderPc.copySnd p a => { c with r := ReaderPc.decOk p a (c.sh.getBuf p).word1 }
  | ReaderPc.decOk p a b =>
    { c with sh := c.sh.modifyRef p (fun n => n - 1), r := ReaderPc.done a b }
  | ReaderPc.done _ _ => c

/-- One machine step under a schedule entry: `true` runs the writer, `false`
the reader. -/
def step (c : Config) (tid : Bool) : Config :=
  if tid then stepW c else stepR c

/-- Run the machine under a schedule (an interleaving). -/
def run (sched : List Bool) (c : Config) : Config :=
  sched.foldl step c

/-- The reader's returned value once its `read()` call has completed. -/
def readerResult (c : Config) : Option (Nat × Nat) :=
  match c.r with
  | ReaderPc.done a b => some (a, b)
  | _ => none

/-- Initial configuration: container constructed with payload `(0,0)`, a
writer about to issue `write (1,1)` then `write (2,2)`, and a reader about to
issue one `read()`. -/
def conf0 : Config :=
  { sh :=
      { buf0 := { word0 := 0, word1 := 0, ref := 0 }
        buf1 := { word0 := 0, word1 := 0, ref := 0 }
        readBuf := 0
        writeBuf := 1 }
    w := { pending := [(1, 1), (2, 2)], pc := WriterPc.ready }
    r := ReaderPc.start }

/-- The interleaving that tears the reader's copy: the writer completes
`write (1,1)` (4 steps); the reader loads the designator, increments slot 1's
count, passes its re-check, and copies word 0 (value 1); the writer then
starts `write (2,2)` and overwrites both words of slot 1 in place (because
`write_buffer_` was never moved off slot 1); the reader finally copies word 1
(now 2) and decrements. -/
def schedTorn : List Bool :=
  [true, true, true, true, false, false, false, false, true, true, false, false]

/-!
Helper lemmas (sequential model).
-/

/-- In a single-threaded execution `read_buffer_` cannot change between the
two loads of a read iteration, so the iteration always succeeds, returns the
current slot's payload, and restores the state (the count increment is undone
by the decrement). -/
theorem DoubleBuffer.readIter_eq (db : DoubleBuffer V) :
    db.readIter = (some ((db.getBuf db.read_buffer_).data), db) := by
  rcases db with ⟨⟨d0, c0⟩, ⟨d1, c1⟩, rb, wb⟩
  fin_cases rb <;>
    simp [DoubleBuffer.readIter, DoubleBuffer.modifyRef, DoubleBuffer.getBuf]

/-- With any positive fuel, the sequential read loop returns on its first
iteration with the current slot's payload, leaving the state unchanged. -/
theorem DoubleBuffer.readLoop_succ (fuel : Nat) (db : DoubleBuffer V) :
    DoubleBuffer.readLoop (fuel + 1) db = some ((db.getBuf db.read_buffer_).data, db) := by
  unfold DoubleBuffer.readLoop
  rw [DoubleBuffer.readIter_eq]

/-- Shape of a returning `write`: the new value is stored through
`write_buffer_`, the current designator moves to `write_buffer_`, and
`write_buffer_` itself is left where it was (the source never reassigns
it). -/
theorem DoubleBuffer.write_eq_some (db : DoubleBuffer V) (v : V) (db' : DoubleBuffer V)
    (h : db.write v = some db') :
    db' = { db.setData db.write_buffer_ v with read_buffer_ := db.write_buffer_ } := by
  rcases db with ⟨⟨d0, c0⟩, ⟨d1, c1⟩, rb, wb⟩
  fin_cases rb <;> fin_cases wb <;>
    simp [DoubleBuffer.write, DoubleBuffer.setData, DoubleBuffer.getBuf] at h ⊢ <;>
    exact h.2.symm

/-!
Claim theorems.
-/

/-- Claim C1 (refuting evaluation): after a successful `write`, the
previously-current slot does NOT become the new pending slot.  From a fresh
container (current = slot 0, pending = slot 1), `write(1)` returns the state
`afterOneWrite`, whose pending designator `write_buffer_` is still slot 1 —
the slot just published — not the previously-current slot 0: the source never
reassigns `write_buffer_` after the exchange, so consecutive writes target
slot 1 forever instead of alternating. -/
theorem write_does_not_swap_pending :
    (DoubleBuffer.mkInit (0 : Nat)).write 1 = some afterOneWrite ∧
    (DoubleBuffer.mkInit (0 : Nat)).read_buffer_ = 0 ∧
    afterOneWrite.write_buffer_ = 1 := by
  refine ⟨by decide, rfl, rfl⟩

/-- Claim C2 (refuting evaluation): in the reachable state `afterOneWrite`
(fresh container followed by `write(1)`), the writer's store target
`write_buffer_` coincides with the current designator `read_buffer_`, and the
next `write(2)` indeed mutates that slot's payload in place (slot 1 goes from
1 to 2) while it is designated current — the writer does mutate the current
slot. -/
theorem second_write_mutates_current_slot :
    afterOneWrite.write_buffer_ = afterOneWrite.read_buffer_ ∧
    afterOneWrite.write 2 = some afterTwoWrites ∧
    afterOneWrite.buffer1.data = 1 ∧ afterTwoWrites.buffer1.data = 2 := by
  refine ⟨rfl, by decide, rfl, rfl⟩

/-- Claim C3 (refuting evaluation): the current designator does not alternate.
From a fresh container, the sequence `write(1); write(2)` reaches
`afterTwoWrites`, whose current designator is still slot 1 — under the claimed
alternation from the initial slot 0 it would be back at slot 0 after the
second write.  `read_buffer_` moves from slot 0 to slot 1 on the first write
and then stays at slot 1 forever. -/
theorem current_does_not_alternate :
    DoubleBuffer.applyWrites (DoubleBuffer.mkInit (0 : Nat)) [1, 2] = some afterTwoWrites ∧
    afterTwoWrites.read_buffer_ = 1 := by
  refine ⟨by decide, rfl⟩

/-- Claim C4 (refuting evaluation): a torn read is reachable.  Under the
interleaving `schedTorn` of one writer issuing `write (1,1)` then
`write (2,2)` and one concurrent reader, starting from the container
constructed with `(0,0)`, the reader's `read()` completes with the value
`(1, 2)` — a mixture of the two writes that is none of the initial or written
values `(0,0)`, `(1,1)`, `(2,2)`. -/
theorem torn_read_reachable :
    readerResult (run schedTorn conf0) = some (1, 2) ∧
    [((0 : Nat), (0 : Nat)), (1, 1), (2, 2)].contains (1, 2) = false := by
  refine ⟨by decide, by decide⟩

/-- Claim C5: read-after-write.  Whenever `write v` returns (state `db'`),
a subsequent `read()` that does not race a later write — modelled by the
sequential read loop — succeeds on its first iteration and returns exactly
`v`, leaving the state unchanged (so every further non-racing read also
returns `v`). -/
theorem read_after_write (db : DoubleBuffer V) (v : V) (db' : DoubleBuffer V)
    (h : db.write v = some db') :
    DoubleBuffer.readLoop 1 db' = some (v, db') := by
  have hd := DoubleBuffer.write_eq_some db v db' h
  subst hd
  rw [show (1 : Nat) = 0 + 1 from rfl, DoubleBuffer.readLoop_succ]
  rcases db with ⟨⟨d0, c0⟩, ⟨d1, c1⟩, rb, wb⟩
  fin_cases wb <;> simp [DoubleBuffer.setData, DoubleBuffer.getBuf]

/-- Witness for C5 at a concrete input: from a fresh container over `Nat`
with initial value 0, `write 5` returns, and the subsequent read returns 5. -/
theorem read_after_write_witness :
    DoubleBuffer.readLoop 1 (DoubleBuffer.mk ⟨0, 0⟩ ⟨5, 0⟩ 1 1 : DoubleBuffer Nat) =
      some (5, DoubleBuffer.mk ⟨0, 0⟩ ⟨5, 0⟩ 1 1) :=
  read_after_write (DoubleBuffer.mkInit 0) 5 (DoubleBuffer.mk ⟨0, 0⟩ ⟨5, 0⟩ 1 1) (by decide)

/-- Claim C6: construction with `init` puts a copy of `init` in both slots,
sets the current designator to slot 0 and the pending designator to slot 1,
zeroes both reader-counts, and the first `read()` before any `write()`
returns `init` (succeeding on its first iteration, leaving the state
unchanged). -/
theorem construction_spec (init : V) :
    (DoubleBuffer.mkInit init).buffer0.data = init ∧
    (DoubleBuffer.mkInit init).buffer1.data = init ∧
    (DoubleBuffer.mkInit init).read_buffer_ = 0 ∧
    (DoubleBuffer.mkInit init).write_buffer_ = 1 ∧
    (DoubleBuffer.mkInit init).buffer0.ref_count = 0 ∧
    (DoubleBuffer.mkInit init).buffer1.ref_count = 0 ∧
    DoubleBuffer.readLoop 1 (DoubleBuffer.mkInit init) = some (init, DoubleBuffer.mkInit init) := by
  refine ⟨rfl, rfl, rfl, rfl, rfl, rfl, ?_⟩
  rw [show (1 : Nat) = 0 + 1 from rfl, DoubleBuffer.readLoop_succ]
  rfl

/-- Claim C7: `read()` leaves the entire container state unchanged — both
slots' payloads, both reader-counts (the increment on the touched slot is
undone by the matching decrement) and both designators are identical before
and after the call; the only caller-visible effect is the returned copy of
the current slot's payload.  Stated for any positive fuel. -/
theorem read_preserves_state (db : DoubleBuffer V) (fuel : Nat) :
    DoubleBuffer.readLoop (fuel + 1) db = some ((db.getBuf db.read_buffer_).data, db) :=
  DoubleBuffer.readLoop_succ fuel db

/-- Claim C8: when no write is in flight — in the sequential model the
current designator cannot change during the call — `read()` succeeds on its
first loop iteration: the single iteration `readIter` takes the non-retry
branch (its first component is `some`, never the retry signal `none`), and
fuel 1 already suffices for the loop to return. -/
theorem read_first_iteration (db : DoubleBuffer V) :
    db.readIter = (some ((db.getBuf db.read_buffer_).data), db) ∧
    DoubleBuffer.readLoop 1 db = some ((db.getBuf db.read_buffer_).data, db) :=
  ⟨DoubleBuffer.readIter_eq db, DoubleBuffer.readLoop_succ 0 db⟩

/-- Claim C9 (counterexample): on a fresh container over `Nat`, a raising
payload copy during `read()` does NOT leave the bookkeeping untouched and
does NOT propagate: the call exits via `std::terminate` (read is `noexcept`)
and slot 0's reader-count is left at 1 — the decrement after the copy was
never executed, contradicting the claim that the decrement runs on every
exit path. -/
theorem raising_copy_skips_decrement :
    ((DoubleBuffer.mkInit (0 : Nat)).readIterExc true).1 = some CopyExit.terminated ∧
    ((DoubleBuffer.mkInit (0 : Nat)).readIterExc true).2.buffer0.ref_count = 1 := by
  refine ⟨rfl, rfl⟩

/-- Claim C9 (amended): if the payload copy does not raise, `read()` returns
the current slot's value with the increment/decrement pair fully restoring
the state; if the copy raises, the `noexcept` qualifier turns the raise into
program termination (no propagation) and the reader-count decrement on that
exit path does not execute, leaving the touched slot's count elevated by
one. -/
theorem read_exc_behavior (db : DoubleBuffer V) :
    db.readIterExc false = (some (CopyExit.ok ((db.getBuf db.read_buffer_).data)), db) ∧
    db.readIterExc true =
      (some CopyExit.terminated, db.modifyRef db.read_buffer_ (fun n => n + 1)) := by
  constructor <;>
  · rcases db with ⟨⟨d0, c0⟩, ⟨d1, c1⟩, rb, wb⟩
    fin_cases rb <;>
      simp [DoubleBuffer.readIterExc, DoubleBuffer.modifyRef, DoubleBuffer.getBuf]

/-- A returning `write` from a state whose pending designator is slot 1
leaves slot 0 and the pending designator untouched: the store goes through
`write_buffer_ = 1` into slot 1, and `write_buffer_` is never reassigned. -/
theorem DoubleBuffer.write_preserves_slot0 (db : DoubleBuffer V) (v : V)
    (db1 : DoubleBuffer V) (hw : db.write_buffer_ = 1) (h : db.write v = some db1) :
    db1.buffer0 = db.buffer0 ∧ db1.write_buffer_ = 1 := by
  have hd := DoubleBuffer.write_eq_some db v db1 h
  subst hd
  rw [hw]
  simp [DoubleBuffer.setData, hw]

/-- Invariant behind claim C10: along any sequence of returning writes, the
payload of slot 0 and the pending designator never change once the pending
designator is slot 1. -/
theorem DoubleBuffer.applyWrites_inv (x : V) (vs : List V) (db db' : DoubleBuffer V)
    (h0 : db.buffer0.data = x) (hw : db.write_buffer_ = 1)
    (h : DoubleBuffer.applyWrites db vs = some db') :
    db'.buffer0.data = x ∧ db'.write_buffer_ = 1 := by
  induction vs generalizing db with
  | nil =>
    simp [DoubleBuffer.applyWrites] at h
    subst h
    exact ⟨h0, hw⟩
  | cons v vs ih =>
    rw [DoubleBuffer.applyWrites] at h
    cases hv : db.write v with
    | none => rw [hv] at h; cases h
    | some db1 =>
      rw [hv] at h
      obtain ⟨hb, hw1⟩ := DoubleBuffer.write_preserves_slot0 db v db1 hw hv
      exact ih db1 (by rw [hb, h0]) hw1 h

/-- Claim C10: along every sequence of returning `write` calls from a fresh
container, slot 0's payload is never modified — every write stores into
slot 1 (the pending designator stays at slot 1 forever), so slot 0 holds the
construction-time initial value after any number of writes. -/
theorem slot0_never_modified (init : V) (vs : List V) (db' : DoubleBuffer V)
    (h : DoubleBuffer.applyWrites (DoubleBuffer.mkInit init) vs = some db') :
    db'.buffer0.data = init ∧ db'.write_buffer_ = 1 :=
  DoubleBuffer.applyWrites_inv init vs (DoubleBuffer.mkInit init) db' rfl rfl h

/-- Witness for C10 at a concrete input: from a fresh container over `Nat`
with initial value 0, the writes 5 then 7 return, and the resulting state
still has 0 in slot 0 and pending designator slot 1. -/
theorem slot0_never_modified_witness :
    (DoubleBuffer.mk ⟨0, 0⟩ ⟨7, 0⟩ 1 1 : DoubleBuffer Nat).buffer0.data = 0 ∧
    (DoubleBuffer.mk ⟨0, 0⟩ ⟨7, 0⟩ 1 1 : DoubleBuffer Nat).write_buffer_ = 1 :=
  slot0_never_modified 0 [5, 7] (DoubleBuffer.mk ⟨0, 0⟩ ⟨7, 0⟩ 1 1) (by decide)
